import Mathlib

/-!
Shallow embedding of `src/script.js` (Swisscows WSS Browser Client), the
static members of the JS class `SC_API`, together with the small pieces of
host (browser) semantics the code leans on: property lookup on class
instances, the `WebSocket` ready-state protocol, the promise settling of the
screenshot probe, and the `fetch` / `new URL` builtins.
-/

set_option autoImplicit false

namespace SC_API

/-! ## Tagged payload codec and domain value types -/

/-- The plain object `{ type, data }` produced by `TypedData` and consumed by
`handleSwssMSG` after destructuring `response.data`. -/
structure TaggedObj (α : Type) where
  type : String
  data : α
  deriving DecidableEq

/-- `static TypedData(data, type) { return { type, data } }` (script.js:110). -/
def TypedData {α : Type} (data : α) (type : String) : TaggedObj α :=
  { type := type, data := data }

/-- The `Tracker` value class (script.js:114-148): constructor stores the three
arguments in the fields `name`, `baseUrl`, `category`; there are no other
instance fields. -/
structure Tracker where
  name : String
  baseUrl : String
  category : String
  deriving DecidableEq

/-- `static FingerprintingGeneral_category = 'FingerprintingGeneral'` (script.js:115). -/
def Tracker.FingerprintingGeneral_category : String := "FingerprintingGeneral"

/-- `static Advertising_category = 'Advertising'` (script.js:116). -/
def Tracker.Advertising_category : String := "Advertising"

/-- `static Content_category = 'Content'` (script.js:117). -/
def Tracker.Content_category : String := "Content"

/-- `static TrackerPayload(name, baseUrl, category)` (script.js:157-159):
`return SC_API.TypedData(new SC_API.Tracker(name, baseUrl, category), "tracker")`. -/
def TrackerPayload (name baseUrl category : String) : TaggedObj Tracker :=
  TypedData (Tracker.mk name baseUrl category) "tracker"

/-- The `Screenshot` instance state (script.js:163-211): the class instance
field `LOADED = false` and the constructor-stored `data`. -/
structure Screenshot where
  data : String
  LOADED : Bool
  deriving DecidableEq

/-- The synchronous part of `new Screenshot(data)` (script.js:200-203): the
field initializer sets `LOADED = false`, the constructor stores `this.data =
data` and starts the asynchronous `testURI` probe; the probe has not settled
yet when the constructor returns, so `LOADED` is still `false`. -/
def Screenshot.construct (data : String) : Screenshot :=
  { data := data, LOADED := false }

/-- `static ScreenshotPayload(data)` (script.js:218-220):
`return SC_API.TypedData(new SC_API.Screenshot(data).data, "screenshot")` —
only the `data` field of the freshly built `Screenshot` is wrapped. -/
def ScreenshotPayload (data : String) : TaggedObj String :=
  TypedData (Screenshot.construct data).data "screenshot"

/-! ## Message dispatcher -/

/-- The `MessageEvent`-shaped argument of `handleSwssMSG`: the code only reads
`response.data`, which it destructures as a tagged object. -/
structure MessageEvent (δ : Type) where
  data : TaggedObj δ

/-- The `opts` argument of `handleSwssMSG` (script.js:233-234): destructuring
`let { tracker, screenshot, error, close } = opts` yields `undefined`
(modelled as `none`) for every handler the caller did not register. -/
structure HandlerOpts (δ ρ : Type) where
  tracker : Option (δ → MessageEvent δ → ρ)
  screenshot : Option (δ → MessageEvent δ → ρ)
  error : Option (δ → MessageEvent δ → ρ)
  close : Option (δ → MessageEvent δ → ρ)

/-- Observable outcome of one `handleSwssMSG` call. `handled r` is the return
value of a registered callback; `undefinedReturn` is the switch falling
through (the function returns `undefined`, no callback touched);
`typeErrorThrown` is the JS `TypeError` raised by `handle(cb)` when `cb` is
`undefined` (calling a non-function). -/
inductive DispatchOutcome (ρ : Type) where
  | handled (r : ρ)
  | undefinedReturn
  | typeErrorThrown
  deriving DecidableEq

/-- `static handleSwssMSG(response, opts)` (script.js:233-244): destructures
the four handlers and `{ type, data: payload } = response.data`, then
`switch (type)` over the four known tag strings, each case returning
`handle(cb) = cb(payload, response)`; an unmatched `type` falls out of the
switch. Calling an unregistered (`undefined`) handler throws a `TypeError`. -/
def handleSwssMSG {δ ρ : Type} (response : MessageEvent δ) (opts : HandlerOpts δ ρ) :
    DispatchOutcome ρ :=
  let payload := response.data.data
  let type := response.data.type
  let handle : Option (δ → MessageEvent δ → ρ) → DispatchOutcome ρ := fun cb =>
    match cb with
    | none => DispatchOutcome.typeErrorThrown
    | some f => DispatchOutcome.handled (f payload response)
  if type = "tracker" then handle opts.tracker
  else if type = "screenshot" then handle opts.screenshot
  else if type = "error" then handle opts.error
  else if type = "close" then handle opts.close
  else DispatchOutcome.undefinedReturn

/-- The four tag strings with a `case` in the dispatcher's switch. -/
def knownTags : List String := ["tracker", "screenshot", "error", "close"]

/-- The handler `opts` holds for a given tag, mirroring the switch's
case-to-callback association; `none` for tags outside the switch. -/
def HandlerOpts.handlerFor {δ ρ : Type} (opts : HandlerOpts δ ρ) (t : String) :
    Option (δ → MessageEvent δ → ρ) :=
  if t = "tracker" then opts.tracker
  else if t = "screenshot" then opts.screenshot
  else if t = "error" then opts.error
  else if t = "close" then opts.close
  else none

/-! ## Theorems: codec and dispatcher claims -/

/-- C5: for every string `s`, `ScreenshotPayload s` is exactly
`{ type := "screenshot", data := s }`; its type `TaggedObj String` carries the
two fields `type` and `data` only, so the `LOADED` flag of the intermediate
`Screenshot` object never appears in the wire payload. -/
theorem screenshotPayload_eq (s : String) :
    ScreenshotPayload s = { type := "screenshot", data := s } := rfl

/-- C6: `TrackerPayload` round-trips through the codec: reading the fields of
its output (the codec's `unwrap` is a direct field read) yields
`type = "tracker"` and a `data` object that is exactly the `Tracker` value
with the three input fields. -/
theorem trackerPayload_roundtrip (name baseUrl category : String) :
    (TrackerPayload name baseUrl category).type = "tracker" ∧
    (TrackerPayload name baseUrl category).data = Tracker.mk name baseUrl category :=
  ⟨rfl, rfl⟩

/-- C7: a message whose tag is outside the known set falls out of the switch:
no callback is invoked and no error is raised, whatever handlers are
registered — the outcome is `undefinedReturn`, independent of `opts`. -/
theorem dispatch_unknown_tag_dropped {δ ρ : Type} (response : MessageEvent δ)
    (opts : HandlerOpts δ ρ) (h : response.data.type ∉ knownTags) :
    handleSwssMSG response opts = DispatchOutcome.undefinedReturn := by
  simp only [knownTags, List.mem_cons, List.not_mem_nil, or_false, not_or] at h
  obtain ⟨h1, h2, h3, h4⟩ := h
  simp [handleSwssMSG, h1, h2, h3, h4]

/-- Witness for C7 at `type = "foo"` with every handler registered. -/
theorem dispatch_unknown_tag_dropped_witness :
    handleSwssMSG (MessageEvent.mk (TaggedObj.mk "foo" "x"))
      (HandlerOpts.mk (some (fun d _ => d)) (some (fun d _ => d))
        (some (fun d _ => d)) (some (fun d _ => d)))
      = DispatchOutcome.undefinedReturn :=
  dispatch_unknown_tag_dropped (MessageEvent.mk (TaggedObj.mk "foo" "x"))
    (HandlerOpts.mk (some (fun d _ => d)) (some (fun d _ => d))
      (some (fun d _ => d)) (some (fun d _ => d))) (by decide)

/-- C1 counterexample: a message with the known tag `"screenshot"` and an
options object registering only a `tracker` handler does NOT pass silently —
the dispatcher reaches `handle(screenshot)` with `screenshot = undefined` and
calling it raises a `TypeError`, refuting "raises no error". -/
theorem dispatch_missing_handler_counterexample :
    handleSwssMSG (MessageEvent.mk (TaggedObj.mk "screenshot" "img"))
      (HandlerOpts.mk (δ := String) (ρ := String) (some (fun d _ => d)) none none none)
      = DispatchOutcome.typeErrorThrown := rfl

/-- C1 (amended): for every message with a known tag and every handler set in
which no handler is registered for that tag, the dispatcher invokes no
registered callback but raises a `TypeError` (it calls the absent handler);
the message is not silently dropped. -/
theorem dispatch_known_tag_missing_handler_throws {δ ρ : Type}
    (response : MessageEvent δ) (opts : HandlerOpts δ ρ)
    (hknown : response.data.type ∈ knownTags)
    (hmiss : opts.handlerFor response.data.type = none) :
    handleSwssMSG response opts = DispatchOutcome.typeErrorThrown := by
  simp only [knownTags, List.mem_cons, List.not_mem_nil, or_false] at hknown
  rcases hknown with h | h | h | h <;>
    simp_all [handleSwssMSG, HandlerOpts.handlerFor]

/-- Witness for C1's amended theorem at the counterexample's concrete input. -/
theorem dispatch_known_tag_missing_handler_throws_witness :
    handleSwssMSG (MessageEvent.mk (TaggedObj.mk "screenshot" "img"))
      (HandlerOpts.mk (δ := String) (ρ := String) (some (fun d _ => d)) none none none)
      = DispatchOutcome.typeErrorThrown :=
  dispatch_known_tag_missing_handler_throws
    (MessageEvent.mk (TaggedObj.mk "screenshot" "img"))
    (HandlerOpts.mk (some (fun d _ => d)) none none none)
    (by decide) rfl

/-! ## Connection manager (`SwisscowsPuppet`) -/

/-- JS runtime values the connection manager passes around. -/
inductive JsVal where
  | undef
  | null
  | str (s : String)
  deriving DecidableEq

/-- A host `WebSocket` object: the url it was constructed with (after the
constructor's stringification of its argument is applied by the host) and its
`readyState`. -/
structure WebSocketObj where
  url : JsVal
  readyState : Nat
  deriving DecidableEq

/-- `WebSocket.CONNECTING` per the WebSocket API. -/
def WebSocket.CONNECTING : Nat := 0

/-- `WebSocket.OPEN` per the WebSocket API. -/
def WebSocket.OPEN : Nat := 1

/-- `WebSocket.CLOSING` per the WebSocket API. -/
def WebSocket.CLOSING : Nat := 2

/-- `WebSocket.CLOSED` per the WebSocket API. -/
def WebSocket.CLOSED : Nat := 3

/-- Instance state of a `SwisscowsPuppet` object: its only instance field is
`ws_instance = null` (script.js:84), later assigned by `connect()`. -/
structure SwisscowsPuppet where
  ws_instance : Option WebSocketObj
  deriving DecidableEq

/-- `static ws = new URL("wss://browse.dev.swisscows.com/ws/")` (script.js:78),
kept as the URL's serialization. Being a static class field, it is a property
of the class constructor object, not of instances. -/
def SwisscowsPuppet.ws : String := "wss://browse.dev.swisscows.com/ws/"

/-- JS property lookup on a property table: a present key yields its value,
an absent key yields `undefined`. -/
def jsGet (props : List (String × JsVal)) (key : String) : JsVal :=
  match props.lookup key with
  | some v => v
  | none => JsVal.undef

/-- The own data properties of a `SwisscowsPuppet` instance: exactly the one
class instance field `ws_instance` (methods live on the prototype and the
static `ws` lives on the constructor, so neither appears here). -/
def SwisscowsPuppet.ownProps (p : SwisscowsPuppet) : List (String × JsVal) :=
  [("ws_instance", match p.ws_instance with
    | none => JsVal.null
    | some _ => JsVal.str "[object WebSocket]")]

/-- The static (constructor-object) properties of class `SwisscowsPuppet`:
exactly the static field `ws` (script.js:78). -/
def SwisscowsPuppet.staticProps : List (String × JsVal) :=
  [("ws", JsVal.str SwisscowsPuppet.ws)]

/-- Reading `this.key` on a `SwisscowsPuppet` instance: own properties first;
the prototype chain (`SwisscowsPuppet.prototype`, `Object.prototype`) holds no
data property read by this code, so anything else is `undefined`. In
particular `this.ws` is `undefined`: static class fields are not reachable
through instances. -/
def SwisscowsPuppet.thisGet (p : SwisscowsPuppet) (key : String) : JsVal :=
  jsGet p.ownProps key

/-- `connect() { return this.ws_instance = new WebSocket(this.ws) }`
(script.js:90): evaluates the property read `this.ws`, hands that value to
the `WebSocket` constructor (a fresh handle in `CONNECTING` state recording
the argument it was given), assigns the handle to `this.ws_instance` and
returns it. The result is the pair (returned handle, updated instance). -/
def SwisscowsPuppet.connect (p : SwisscowsPuppet) : WebSocketObj × SwisscowsPuppet :=
  let w : WebSocketObj := { url := p.thisGet "ws", readyState := WebSocket.CONNECTING }
  (w, { p with ws_instance := some w })

/-- Observable effects of one `send` call: the payload handed to
`ws_instance.send` (as `JSON.stringify(payload)` text on the wire; the model
records the payload object serialized), if any, and the `console.error`
diagnostics emitted. -/
structure SendEffect (π : Type) where
  transmitted : Option π
  consoleErrors : List String
  deriving DecidableEq

/-- `send(payload)` (script.js:96-100): the guard
`this.ws_instance && this.ws_instance.readyState === WebSocket.OPEN` (a null
`ws_instance` is falsy) selects between `this.ws_instance.send(...)` and
`console.error("WebSocket is not open. Unable to send payload.")`. No path
throws. -/
def SwisscowsPuppet.send {π : Type} (p : SwisscowsPuppet) (payload : π) : SendEffect π :=
  match p.ws_instance with
  | some w =>
    if w.readyState = WebSocket.OPEN then
      { transmitted := some payload, consoleErrors := [] }
    else
      { transmitted := none, consoleErrors := ["WebSocket is not open. Unable to send payload."] }
  | none =>
    { transmitted := none, consoleErrors := ["WebSocket is not open. Unable to send payload."] }

/-- Whether the manager is in the `open` state: a handle exists and its
`readyState` is `OPEN`. -/
def SwisscowsPuppet.isOpen (p : SwisscowsPuppet) : Bool :=
  match p.ws_instance with
  | some w => w.readyState = WebSocket.OPEN
  | none => false

/-- Result of `close()` (script.js:105). In JS, a method call on `null`
throws a `TypeError`; the `none` branch embeds that. -/
inductive CloseResult where
  | typeErrorThrown
  | requested (w : WebSocketObj)
  deriving DecidableEq

/-- `close() { this.ws_instance.close() }` (script.js:105): dereferences
`this.ws_instance` unconditionally — `null` (never connected) throws a
`TypeError`, otherwise shutdown is requested on the handle. -/
def SwisscowsPuppet.close (p : SwisscowsPuppet) : CloseResult :=
  match p.ws_instance with
  | none => CloseResult.typeErrorThrown
  | some w => CloseResult.requested w

/-- The outbound `WSPayload` value class (script.js:13-71): six fields stored
by the constructor. -/
structure WSPayload where
  url : String
  imageType : String
  imageQuality : Nat
  width : Nat
  height : Nat
  waitForEvent : String
  deriving DecidableEq

/-! ## Theorems: connection manager claims -/

/-- C2 (code-bug evidence): `connect()` does NOT pass the fixed endpoint to
the `WebSocket` constructor. The argument it evaluates, `this.ws`, is
`undefined` on every instance — the endpoint lives in the static field `ws`
on the class constructor (`staticProps`), which instance property lookup
never reaches. The handle is still assigned and returned, but its url is
`undefined`, not `"wss://browse.dev.swisscows.com/ws/"`. -/
theorem connect_passes_undefined_url (p : SwisscowsPuppet) :
    (p.connect).1.url = JsVal.undef ∧
    (p.connect).1.url ≠ JsVal.str SwisscowsPuppet.ws ∧
    jsGet SwisscowsPuppet.staticProps "ws" = JsVal.str SwisscowsPuppet.ws ∧
    (p.connect).2.ws_instance = some (p.connect).1 := by
  refine ⟨rfl, ?_, rfl, rfl⟩
  intro h
  exact JsVal.noConfusion h

/-- C3: `send` on a manager that is not open (no handle, or a handle whose
`readyState` is not `OPEN`) transmits nothing and emits exactly the one
diagnostic `console.error` line; the embedding is a total function on these
inputs (no throwing path exists in the source: both branches only read
fields and call `console.error`). -/
theorem send_not_open_no_transmit_one_diagnostic {π : Type} (p : SwisscowsPuppet)
    (payload : π) (h : p.isOpen = false) :
    (p.send payload).transmitted = none ∧
    (p.send payload).consoleErrors = ["WebSocket is not open. Unable to send payload."] := by
  cases hp : p.ws_instance with
  | none => simp [SwisscowsPuppet.send, hp]
  | some w =>
    simp only [SwisscowsPuppet.isOpen, hp, decide_eq_false_iff_not] at h
    simp [SwisscowsPuppet.send, hp, h]

/-- Witness for C3: an unconnected manager and one with a `CLOSED` handle,
each transmitting nothing and emitting exactly one diagnostic. -/
theorem send_not_open_no_transmit_one_diagnostic_witness :
    ((SwisscowsPuppet.mk none).send (WSPayload.mk "https://example.com" "jpeg" 80 1280 800 "networkidle0")).transmitted = none ∧
    ((SwisscowsPuppet.mk none).send (WSPayload.mk "https://example.com" "jpeg" 80 1280 800 "networkidle0")).consoleErrors = ["WebSocket is not open. Unable to send payload."] ∧
    ((SwisscowsPuppet.mk (some (WebSocketObj.mk JsVal.undef WebSocket.CLOSED))).send (WSPayload.mk "https://example.com" "jpeg" 80 1280 800 "networkidle0")).transmitted = none := by
  refine ⟨?_, ?_, ?_⟩
  · exact (send_not_open_no_transmit_one_diagnostic (SwisscowsPuppet.mk none)
      (WSPayload.mk "https://example.com" "jpeg" 80 1280 800 "networkidle0") rfl).1
  · exact (send_not_open_no_transmit_one_diagnostic (SwisscowsPuppet.mk none)
      (WSPayload.mk "https://example.com" "jpeg" 80 1280 800 "networkidle0") rfl).2
  · exact (send_not_open_no_transmit_one_diagnostic
      (SwisscowsPuppet.mk (some (WebSocketObj.mk JsVal.undef WebSocket.CLOSED)))
      (WSPayload.mk "https://example.com" "jpeg" 80 1280 800 "networkidle0") (by decide)).1

/-- C8: `close()` on a never-connected instance (absent handle) dereferences
`null` and throws a `TypeError` rather than no-opping; when a handle exists,
`close()` requests shutdown on exactly that handle. -/
theorem close_spec (p : SwisscowsPuppet) :
    (p.ws_instance = none → p.close = CloseResult.typeErrorThrown) ∧
    (∀ w, p.ws_instance = some w → p.close = CloseResult.requested w) := by
  constructor
  · intro h; simp [SwisscowsPuppet.close, h]
  · intro w h; simp [SwisscowsPuppet.close, h]

/-- Witness for C8: both branches at concrete instances. -/
theorem close_spec_witness :
    (SwisscowsPuppet.mk none).close = CloseResult.typeErrorThrown ∧
    (SwisscowsPuppet.mk (some (WebSocketObj.mk JsVal.undef WebSocket.OPEN))).close
      = CloseResult.requested (WebSocketObj.mk JsVal.undef WebSocket.OPEN) :=
  ⟨(close_spec (SwisscowsPuppet.mk none)).1 rfl,
   (close_spec (SwisscowsPuppet.mk (some (WebSocketObj.mk JsVal.undef WebSocket.OPEN)))).2
     (WebSocketObj.mk JsVal.undef WebSocket.OPEN) rfl⟩

/-! ## Summarizer client (`ai_summary`) -/

/-- `static AI_ROUTE = new URL('https://summarizer.dev.swisscows.com/summarize')`
(script.js:2), kept as the URL's serialization. -/
def AI_ROUTE : String := "https://summarizer.dev.swisscows.com/summarize"

/-- Character class a host name is built from in the modelled URL subset. -/
def isHostChar (c : Char) : Bool := c.isAlphanum || c = '.' || c = '-'

/-- Prefix test on character lists, returning the remainder after the prefix. -/
def stripPrefixChars : List Char → List Char → Option (List Char)
  | [], cs => some cs
  | _ :: _, [] => none
  | p :: ps, c :: cs => if p = c then stripPrefixChars ps cs else none

/-- The part after `scheme://`: a non-empty run of host characters, followed
either by nothing (the serializer then appends the root path `/`) or by an
explicit `/`-initial path (serialized as given). Anything else (empty host,
userinfo, query or fragment immediately after the host, ...) is outside the
modelled subset. -/
def parseAfterScheme (rest : List Char) : Option (List Char) :=
  let host := rest.takeWhile isHostChar
  let tail := rest.dropWhile isHostChar
  if host.isEmpty then none
  else
    match tail with
    | [] => some (rest ++ ['/'])
    | '/' :: _ => some rest
    | _ => none

/-- Modelled from the WHATWG URL standard: the browser's `new URL(input)`
builtin (host code, not part of this repository), restricted to absolute
URLs of the shape `scheme://host[/path]` over the special schemes the client
uses. On success it returns the normalized serialization (the `href` the JS
code obtains when the URL object is stringified): when the path is empty a
single `/` is appended. On failure (`none`) the builtin throws a `TypeError`
synchronously. -/
def miniURLParse (s : String) : Option String :=
  let cs := s.toList
  let tryScheme : String → Option String := fun scheme =>
    (stripPrefixChars scheme.toList cs).bind fun rest =>
      (parseAfterScheme rest).map fun tail => String.mk (scheme.toList ++ tail)
  (tryScheme "https://") <|> (tryScheme "http://") <|> (tryScheme "wss://") <|> (tryScheme "ws://")

/-- A `fetch` request as this client builds it: the route part of the URL,
its query parameters in the order `searchParams.set` was called, and the
HTTP method from the init object. -/
structure FetchRequest where
  route : String
  params : List (String × String)
  method : String
  deriving DecidableEq

/-- Host behaviour of one `fetch` call: the returned promise either rejects
(network failure) or resolves to a response whose `text()` body is `some s`,
or which has no usable `text` method / body (`none` — the `?.text?.()` chain
then yields `undefined`). -/
inductive FetchResult where
  | networkError
  | resolved (text : Option String)
  deriving DecidableEq

/-- Completion of a JS async function: a fulfilled value or a propagated
thrown error / rejection. -/
inductive JsOutcome (α : Type) where
  | ok (value : α)
  | thrown (err : String)
  deriving DecidableEq

/-- One run of `ai_summary`: the `fetch` request issued (if execution reached
the `fetch` call at all) and the call's completion. -/
structure AiSummaryRun where
  request : Option FetchRequest
  outcome : JsOutcome (Option String)
  deriving DecidableEq

/-- `static async ai_summary(website, language = 'en')` (script.js:4-9):
copies `AI_ROUTE`, evaluates `new URL(website)` (throwing synchronously on an
unparseable input, before any network activity) and stores its serialization
under the `url` query parameter, then `language`, then awaits
`fetch(url, { method: 'POST' })` — a rejection propagates out of the `await`
uncaught — and finally returns `await response?.text?.()`, `undefined` when
the resolved response has no text body. `urlParse` is the host URL builtin
(`miniURLParse` in concrete runs); `fetchHost` is the host network. -/
def ai_summary (urlParse : String → Option String) (fetchHost : FetchRequest → FetchResult)
    (website : String) (language : String) : AiSummaryRun :=
  match urlParse website with
  | none =>
    { request := none, outcome := JsOutcome.thrown "TypeError: Failed to construct URL" }
  | some href =>
    let req : FetchRequest :=
      { route := AI_ROUTE, params := [("url", href), ("language", language)], method := "POST" }
    match fetchHost req with
    | FetchResult.networkError =>
      { request := some req, outcome := JsOutcome.thrown "TypeError: Failed to fetch" }
    | FetchResult.resolved t =>
      { request := some req, outcome := JsOutcome.ok t }

/-- The one request `ai_summary` issues for a website whose parsed
serialization is `href`: the summarizer route with the `url` parameter set
first, then `language`, sent as a body-less POST (script.js:5-8). -/
def aiRequest (href language : String) : FetchRequest :=
  { route := AI_ROUTE, params := [("url", href), ("language", language)], method := "POST" }

/-! ## Theorems: summarizer claims -/

/-- C4 counterexample: with the network failing, `ai_summary` on a perfectly
parseable website completes with a thrown error — the `fetch` rejection
propagates out of the bare `await` to the caller, refuting "does not
propagate a thrown error". -/
theorem ai_summary_network_failure_throws_counterexample :
    (ai_summary miniURLParse (fun _ => FetchResult.networkError)
      "https://example.com" "en").outcome
      = JsOutcome.thrown "TypeError: Failed to fetch" := by decide

/-- C4 (amended): for a parseable website, if the `fetch` call itself fails
the rejection propagates to the caller as a thrown error; only when the host
resolves the response does `ai_summary` return without throwing, and a
response with an absent text body yields the absent result `none` — the
`?.text?.()` chain tolerates a missing body, not a failed network call. -/
theorem ai_summary_failure_modes (website language href : String)
    (fetchHost : FetchRequest → FetchResult) (hparse : miniURLParse website = some href) :
    ((fetchHost (aiRequest href language) = FetchResult.networkError →
        (ai_summary miniURLParse fetchHost website language).outcome
          = JsOutcome.thrown "TypeError: Failed to fetch") ∧
      (∀ t, fetchHost (aiRequest href language) = FetchResult.resolved t →
        (ai_summary miniURLParse fetchHost website language).outcome = JsOutcome.ok t)) := by
  constructor
  · intro hf
    simp only [aiRequest] at hf
    simp [ai_summary, hparse, hf]
  · intro t hf
    simp only [aiRequest] at hf
    simp [ai_summary, hparse, hf]

/-- Witness for C4's amended theorem: both failure modes at
`website = "https://example.com"` — a rejecting network throws, a resolved
response with no text body yields the absent result without throwing. -/
theorem ai_summary_failure_modes_witness :
    ((ai_summary miniURLParse (fun _ => FetchResult.networkError)
        "https://example.com" "en").outcome = JsOutcome.thrown "TypeError: Failed to fetch") ∧
    ((ai_summary miniURLParse (fun _ => FetchResult.resolved none)
        "https://example.com" "en").outcome = JsOutcome.ok none) :=
  ⟨(ai_summary_failure_modes "https://example.com" "en" "https://example.com/"
      (fun _ => FetchResult.networkError) (by decide)).1 rfl,
   (ai_summary_failure_modes "https://example.com" "en" "https://example.com/"
      (fun _ => FetchResult.resolved none) (by decide)).2 none rfl⟩

/-- C10: `ai_summary` re-parses its `website` argument with the URL builtin
before any network activity: on an unparseable website it throws
synchronously and no `fetch` request is ever issued (for every host network),
and on a parseable website the single request issued carries the `url` query
parameter equal to the parsed URL's normalized serialization `href` (the
stringification of the `URL` object passed to `searchParams.set`), together
with the `language` parameter, against the fixed summarizer route. -/
theorem ai_summary_parses_website_first (website language : String)
    (fetchHost : FetchRequest → FetchResult) :
    (miniURLParse website = none →
      (ai_summary miniURLParse fetchHost website language).request = none ∧
      (ai_summary miniURLParse fetchHost website language).outcome
        = JsOutcome.thrown "TypeError: Failed to construct URL") ∧
    (∀ href, miniURLParse website = some href →
      (ai_summary miniURLParse fetchHost website language).request
        = some (aiRequest href language)) := by
  constructor
  · intro h; simp [ai_summary, h]
  · intro href h; cases hf : fetchHost (aiRequest href language) <;>
      simp only [aiRequest] at hf <;> simp [ai_summary, aiRequest, h, hf]

/-- Witness for C10: the unparseable input `"not a url"` throws before any
request; the parseable input `"https://example.com"` issues a request whose
`url` parameter is the normalized serialization `"https://example.com/"`,
which differs from the caller's original string. -/
theorem ai_summary_parses_website_first_witness :
    ((ai_summary miniURLParse (fun _ => FetchResult.resolved (some "S"))
        "not a url" "en").request = none) ∧
    ((ai_summary miniURLParse (fun _ => FetchResult.resolved (some "S"))
        "https://example.com" "en").request
      = some (aiRequest "https://example.com/" "en")) ∧
    ("https://example.com/" ≠ "https://example.com") :=
  ⟨(ai_summary_parses_website_first "not a url" "en"
      (fun _ => FetchResult.resolved (some "S"))).1 (by decide) |>.1,
   (ai_summary_parses_website_first "https://example.com" "en"
      (fun _ => FetchResult.resolved (some "S"))).2 "https://example.com/" (by decide),
   by decide⟩

/-! ## Screenshot validity probe and the `LOADED` flag -/

/-- Runtime state of a `Screenshot` instance together with the settling state
of the `testURI` promise its constructor started (script.js:200-203): the
promise is pending until one of the image callbacks fires, and a settled
promise ignores every later call of its resolver. -/
structure ScreenshotSt where
  data : String
  LOADED : Bool
  probeSettled : Bool
  deriving DecidableEq

/-- State right after `new Screenshot(data)` returns: `LOADED` is the field
initializer's `false` and the probe promise is still pending. -/
def screenshotInit (data : String) : ScreenshotSt :=
  { data := data, LOADED := false, probeSettled := false }

/-- An asynchronous event acting on a `Screenshot` instance: one call of the
probe promise's resolver, `resolve(true)` from `onload` (`pass`) or
`resolve(false)` from `onerror`/`onabort` (`fail`) in `makeImgOpts`
(script.js:171-180). -/
inductive ProbeEvent where
  | resolveCall (result : Bool)
  deriving DecidableEq

/-- Effect of one resolver call: per promise semantics the first call settles
the promise, which runs `.then(res => this.LOADED = res)` (script.js:202)
with that result; a resolver call on an already-settled promise is ignored,
so `LOADED` is never written a second time. -/
def probeStep (s : ScreenshotSt) : ProbeEvent → ScreenshotSt
  | ProbeEvent.resolveCall b =>
    if s.probeSettled then s else { s with LOADED := b, probeSettled := true }

/-- The instance state after a sequence of asynchronous events. -/
def probeRun (s : ScreenshotSt) (es : List ProbeEvent) : ScreenshotSt :=
  es.foldl probeStep s

/-- The successive values of `this.LOADED` observed along an event sequence,
starting from the given state (one entry per state, `es.length + 1` total). -/
def loadedTrace (s : ScreenshotSt) : List ProbeEvent → List Bool
  | [] => [s.LOADED]
  | e :: es => s.LOADED :: loadedTrace (probeStep s e) es

/-- Number of value changes along a list of observations. -/
def changes : List Bool → Nat
  | a :: b :: l => (if a = b then 0 else 1) + changes (b :: l)
  | _ => 0

/-- The result of the first resolver call in an event sequence, if any. -/
def firstResult : List ProbeEvent → Option Bool
  | [] => none
  | ProbeEvent.resolveCall b :: _ => some b

/-! ## Theorems: probe claims -/

theorem probeStep_settled (s : ScreenshotSt) (e : ProbeEvent)
    (h : s.probeSettled = true) : probeStep s e = s := by
  cases e with
  | resolveCall b => simp [probeStep, h]

theorem probeRun_settled (s : ScreenshotSt) (es : List ProbeEvent)
    (h : s.probeSettled = true) : probeRun s es = s := by
  induction es with
  | nil => rfl
  | cons e es ih =>
    show probeRun (probeStep s e) es = s
    rw [probeStep_settled s e h]
    exact ih

theorem changes_cons_loadedTrace (a : Bool) (s : ScreenshotSt) (es : List ProbeEvent) :
    changes (a :: loadedTrace s es)
      = (if a = s.LOADED then 0 else 1) + changes (loadedTrace s es) := by
  cases es <;> rfl

theorem loadedTrace_settled_changes (s : ScreenshotSt) (es : List ProbeEvent)
    (h : s.probeSettled = true) : changes (loadedTrace s es) = 0 := by
  induction es with
  | nil => rfl
  | cons e es ih =>
    show changes (s.LOADED :: loadedTrace (probeStep s e) es) = 0
    rw [probeStep_settled s e h, changes_cons_loadedTrace]
    simp [ih]

theorem loadedTrace_unsettled_changes (s : ScreenshotSt) (es : List ProbeEvent)
    (h : s.probeSettled = false) : changes (loadedTrace s es) ≤ 1 := by
  cases es with
  | nil => exact Nat.zero_le 1
  | cons e es =>
    cases e with
    | resolveCall b =>
      have hstep : probeStep s (ProbeEvent.resolveCall b)
          = { s with LOADED := b, probeSettled := true } := by
        simp [probeStep, h]
      show changes (s.LOADED :: loadedTrace (probeStep s (ProbeEvent.resolveCall b)) es) ≤ 1
      rw [hstep, changes_cons_loadedTrace,
        loadedTrace_settled_changes { s with LOADED := b, probeSettled := true } es rfl]
      split <;> simp

/-- C9: for every `Screenshot` instance and every sequence of resolver-call
events, the `LOADED` flag is `false` at construction, the observed values of
`LOADED` change at most once over the whole run (a settled probe promise
ignores later resolver calls, so the flag is never rewritten), and the final
value is the result of the first resolver call — the probe's settled boolean
— or still `false` when the probe never settles. -/
theorem screenshot_loaded_transitions_at_most_once (d : String) (es : List ProbeEvent) :
    (screenshotInit d).LOADED = false ∧
    changes (loadedTrace (screenshotInit d) es) ≤ 1 ∧
    (probeRun (screenshotInit d) es).LOADED = (firstResult es).getD false := by
  refine ⟨rfl, loadedTrace_unsettled_changes (screenshotInit d) es rfl, ?_⟩
  cases es with
  | nil => rfl
  | cons e es =>
    cases e with
    | resolveCall b =>
      show (probeRun (probeStep (screenshotInit d) (ProbeEvent.resolveCall b)) es).LOADED
        = ((firstResult (ProbeEvent.resolveCall b :: es)).getD false)
      have hstep : probeStep (screenshotInit d) (ProbeEvent.resolveCall b)
          = ScreenshotSt.mk d b true := rfl
      rw [hstep, probeRun_settled (ScreenshotSt.mk d b true) es rfl]
      rfl

